import Mathlib

/-
Shallow embedding of the `owning_ref` Rust crate (src/lib.rs).

The crate stores a raw pointer `reference : *const T` next to an owner
`owner : O`.  Under the `StableAddress` contract the memory behind that
pointer is immutable and valid for the combinator's whole lifetime, so
reading through the pointer (`&*self.reference`) always observes the value
that was computed when the pointer was stored (`&*o` in `new`,
`f(&*self)` in `map`).  The embedding therefore represents the stored
pointer by the target value it points at; pointer identity (the numeric
address) is not observable in the embedding, only the value read through
the pointer.
-/

namespace OwningRefRs

/-- Rust's `Deref` trait: the owner type `O` dereferences to an associated
target type `T` (`type Target`, modelled as an `outParam`). -/
class Deref (O : Type) (T : outParam Type) where
  deref : O → T

/-- Rust `pub unsafe trait StableAddress: Deref {}` (src/lib.rs:3): a
method-free marker certifying that the owner's dereferenced address is
stable across moves of the owner value.  In the value-level embedding the
marker carries no extra obligations; it gates `new` exactly as the trait
bound does in the source. -/
class StableAddress (O : Type) (T : outParam Type) extends Deref O T

/-- Rust's `Clone` trait, restricted to what the source uses: a duplication
function on the owner type. -/
class Clone (O : Type) where
  clone : O → O

/-- Rust `pub unsafe trait CloneStableAddress: StableAddress + Clone {}`
(src/lib.rs:4).  Its documented promise — duplicating the owner yields a
handle whose dereference returns the identical address — appears here as
the field `clone_deref`, stated at the value level. -/
class CloneStableAddress (O : Type) (T : outParam Type) extends
    StableAddress O T, Clone O where
  clone_deref : ∀ o : O, Deref.deref (Clone.clone o) = (Deref.deref o : T)

/-- `pub struct OwningRef<O, T: ?Sized> { owner: O, reference: *const T }`
(src/lib.rs:6-9).  `reference` holds the target value read through the
stored `*const T` pointer. -/
structure OwningRef (O : Type) (T : Type) where
  owner : O
  reference : T

/-- `impl Deref for OwningRef` (src/lib.rs:61-69): `deref` returns
`&*self.reference`, i.e. the value behind the stored pointer. -/
instance instDerefOwningRef {O T : Type} : Deref (OwningRef O T) T :=
  ⟨OwningRef.reference⟩

/-- `OwningRef::new` (src/lib.rs:18-24): `let ptr: *const T = &*o;`
then store `{ owner: o, reference: ptr }`. -/
def OwningRef.new {O T : Type} [StableAddress O T] (o : O) : OwningRef O T :=
  { owner := o, reference := Deref.deref o }

/-- `OwningRef::into_inner` (src/lib.rs:32-34): `self.owner`. -/
def OwningRef.into_inner {O T : Type} (c : OwningRef O T) : O :=
  c.owner

/-- `OwningRef::map` (src/lib.rs:40-49): `let ptr = f(&*self) as *const _;`
then rebuild with the same owner and the new pointer.  `&*self` is the
`Deref` impl of the combinator itself. -/
def OwningRef.map {O T U : Type} (c : OwningRef O T) (f : T → U) :
    OwningRef O U :=
  { owner := c.owner, reference := f (Deref.deref c) }

/-- `impl Clone for OwningRef where O: CloneStableAddress` (src/lib.rs:90-99):
clone the owner, copy the stored pointer unchanged.  Only the `Clone`
capability of the owner is used computationally. -/
def OwningRef.clone {O T : Type} [Clone O] (c : OwningRef O T) :
    OwningRef O T :=
  { owner := Clone.clone c.owner, reference := c.reference }

/-- `impl From<O> for OwningRef` (src/lib.rs:71-77): `OwningRef::new(owner)`.
Named `fromOwner` because `from` is a Lean keyword. -/
def OwningRef.fromOwner {O T : Type} [StableAddress O T] (owner : O) :
    OwningRef O T :=
  OwningRef.new owner

/-- Iterated narrowing at a fixed target type: `N` successive `map` calls,
one per element of `fs`. -/
def OwningRef.mapN {O T : Type} (c : OwningRef O T) (fs : List (T → T)) :
    OwningRef O T :=
  fs.foldl (fun a f => a.map f) c

/-- Rust's `Debug` trait, modelled as rendering to a `String` (the source
only ever writes the full rendering to a formatter). -/
class Debug (A : Type) where
  fmt : A → String

/-- Escaping performed by Rust's `Debug` impl for string data (relevant
cases only; all test inputs are plain ASCII). -/
def escapeChar (c : Char) : String :=
  if c = '"' then "\\\""
  else if c = '\\' then "\\\\"
  else if c = '\n' then "\\n"
  else if c = '\t' then "\\t"
  else if c = '\r' then "\\r"
  else String.mk [c]

/-- Rust `Debug` for string data: the content escaped and wrapped in
double quotes. -/
instance instDebugString : Debug String :=
  ⟨fun s => "\"" ++ String.join (s.data.map escapeChar) ++ "\""⟩

/-- `impl Debug for OwningRef where O: Debug, T: Debug` (src/lib.rs:81-88):
`write!(f, "OwningRef \x7b\x7b owner: {:?}, reference: {:?} \x7d\x7d",
self.owner(), &**self)`. -/
instance instDebugOwningRef {O T : Type} [Debug O] [Debug T] :
    Debug (OwningRef O T) :=
  ⟨fun c => "OwningRef \x7b owner: " ++ Debug.fmt c.owner ++
    ", reference: " ++ Debug.fmt (Deref.deref c) ++ " \x7d"⟩

/-- Rust `Box<T>`: heap allocation owning one value; `Deref` yields the
payload.  `unsafe impl StableAddress for Box<T>` (src/lib.rs:112). -/
structure Box (T : Type) where
  val : T

instance instStableAddressBox {T : Type} : StableAddress (Box T) T :=
  { deref := Box.val }

/-- Rust `Debug` for `Box<T>` formats the pointee. -/
instance instDebugBox {T : Type} [Debug T] : Debug (Box T) :=
  ⟨fun b => Debug.fmt b.val⟩

/-- Rust `Rc<T>`: reference-counted shared handle; clone shares the same
storage, so at the value level it returns the same handle.
`unsafe impl CloneStableAddress for Rc<T>` (src/lib.rs:115-116). -/
structure Rc (T : Type) where
  val : T

instance instCloneStableAddressRc {T : Type} : CloneStableAddress (Rc T) T :=
  { deref := Rc.val, clone := fun r => r, clone_deref := fun _ => rfl }

/-- Rust byte-range slicing `&s[a..b]` on string data, for ASCII content
(bytes = chars): drop `a` characters, take `b - a`. -/
def strSlice (s : String) (a b : Nat) : String :=
  String.mk ((s.data.drop a).take (b - a))

/-- Narrowing never touches the owner field: after any list of `map`
calls the owner is unchanged (helper shared by the frame and round-trip
theorems). -/
theorem mapN_owner {O T : Type} (fs : List (T → T)) :
    ∀ c : OwningRef O T, (c.mapN fs).owner = c.owner := by
  induction fs with
  | nil => intro c; rfl
  | cons f fs ih => intro c; exact ih (c.map f)

/-- C1: for every owner `o` satisfying the Stability capability and
dereferencing to `T`, dereferencing `OwningRef.new o` yields the same
target value as dereferencing `o` directly. -/
theorem new_deref_eq {O T : Type} [StableAddress O T] (o : O) :
    Deref.deref (OwningRef.new o : OwningRef O T) = Deref.deref o :=
  rfl

/-- C2: two successive narrowings observe the same value as the single
narrowing by the composed projection: `(c.map f).map g` and
`c.map (fun x => g (f x))` dereference identically. -/
theorem map_map_deref_eq {O T U V : Type} (c : OwningRef O T)
    (f : T → U) (g : U → V) :
    Deref.deref ((c.map f).map g) =
      Deref.deref (c.map (fun x => g (f x))) :=
  rfl

/-- C3: `map` replaces only the stored reference — the owner field is
untouched by one call, and the `owner` accessor after any number `N` of
`map` calls still returns the original owner's data unchanged. -/
theorem map_preserves_owner {O T U : Type} (c : OwningRef O T)
    (f : T → U) (fs : List (T → T)) :
    (c.map f).owner = c.owner ∧
    (c.map f).reference = f c.reference ∧
    (c.mapN fs).owner = c.owner :=
  ⟨rfl, rfl, mapN_owner fs c⟩

/-- C4: `into_inner` after any sequence of `map` calls returns the
original owner value intact. -/
theorem into_inner_after_maps {O T : Type} [StableAddress O T]
    (o : O) (fs : List (T → T)) :
    ((OwningRef.new o : OwningRef O T).mapN fs).into_inner = o := by
  show ((OwningRef.new o : OwningRef O T).mapN fs).owner = o
  rw [mapN_owner]
  rfl

/-- C5: `clone` (gated by the `CloneStableAddress` capability of the
owner, exactly as the source impl is) produces a combinator whose owner
is the duplicate handle of the original owner and whose stored reference
is copied unchanged, so both combinators dereference to the same
target. -/
theorem clone_spec {O T0 T : Type} [CloneStableAddress O T0]
    (c : OwningRef O T) :
    c.clone.owner = Clone.clone c.owner ∧
    c.clone.reference = c.reference ∧
    Deref.deref c.clone = Deref.deref c :=
  ⟨rfl, rfl, rfl⟩

/-- C6 counterexample: with owner a boxed `"hello world"` buffer, mapping
to the sub-range `[1..5)` dereferences to `"ello"`, not `"ello "` as the
claim states. -/
theorem map_range_one_five_ne :
    Deref.deref ((OwningRef.new (Box.mk "hello world") :
        OwningRef (Box String) String).map (fun x => strSlice x 1 5)) ≠
      "ello " := by
  decide

/-- C6 amended: mapping the `"hello world"` combinator to `[1..5)` yields
`"ello"`, and mapping that result to `[0..2)` and dereferencing yields
`"el"` (matching the `map_chained` test). -/
theorem map_chained_values :
    Deref.deref ((OwningRef.new (Box.mk "hello world") :
        OwningRef (Box String) String).map (fun x => strSlice x 1 5)) =
      "ello" ∧
    Deref.deref (((OwningRef.new (Box.mk "hello world") :
        OwningRef (Box String) String).map (fun x => strSlice x 1 5)).map
        (fun x => strSlice x 0 2)) = "el" := by
  exact ⟨by decide, by decide⟩

/-- C7: the debug render of every combinator formats both the owner and
the current dereferenced target as
`OwningRef \x7b owner: .., reference: .. \x7d`; on the `fmt_debug` test
input it produces exactly the string the test asserts. -/
theorem debug_fmt_spec {O T : Type} [Debug O] [Debug T]
    (c : OwningRef O T) :
    Debug.fmt c = "OwningRef \x7b owner: " ++ Debug.fmt c.owner ++
      ", reference: " ++ Debug.fmt (Deref.deref c) ++ " \x7d" ∧
    Debug.fmt ((OwningRef.new (Box.mk "hello world") :
        OwningRef (Box String) String).map (fun x => strSlice x 0 5)) =
      "OwningRef \x7b owner: \"hello world\", reference: \"hello\" \x7d" :=
  ⟨rfl, by decide⟩

/-- C8: no core operation is fallible.  Each operation of the embedding is
a total function (its type has no error component, mirroring the absence
of any panicking or error-returning path in the source), and on every
well-typed input — arbitrary owner, arbitrary projections — construct,
dereference, owner, into_inner, map and clone all yield their defining
values. -/
theorem core_ops_total {O T U : Type} [StableAddress O T] [Clone O]
    (o : O) (fs : List (T → T)) (f : T → U) :
    (OwningRef.new o : OwningRef O T).owner = o ∧
    Deref.deref (OwningRef.new o : OwningRef O T) = Deref.deref o ∧
    ((OwningRef.new o : OwningRef O T).mapN fs).into_inner = o ∧
    Deref.deref ((OwningRef.new o : OwningRef O T).map f) =
      f (Deref.deref o) ∧
    ((OwningRef.new o : OwningRef O T).clone).owner = Clone.clone o := by
  refine ⟨rfl, rfl, ?_, rfl, rfl⟩
  show ((OwningRef.new o : OwningRef O T).mapN fs).owner = o
  rw [mapN_owner]
  rfl

/-- C10: constructing through the `From` conversion is observationally
identical to constructing through `new`: same owner, same stored
reference. -/
theorem fromOwner_eq_new {O T : Type} [StableAddress O T] (o : O) :
    (OwningRef.fromOwner o : OwningRef O T).owner =
      (OwningRef.new o : OwningRef O T).owner ∧
    (OwningRef.fromOwner o : OwningRef O T).reference =
      (OwningRef.new o : OwningRef O T).reference :=
  ⟨rfl, rfl⟩

end OwningRefRs
